import Mathlib

/-!
Shallow embedding of the fingerprint-authentication service
(user.service, sift.helper, and the Prisma schema of the repository).

Conventions of the embedding:
* JS numbers are modelled as `ℚ` (scores, histogram entries) or `ℕ`/`ℤ`
  (ids, counts, roles); `Math.sqrt` is `Real.sqrt` on the rational cast.
* The Prisma store is a `Db` value threaded explicitly; `findFirst`
  is `List.find?` in table order, `create` appends, `deleteMany` filters.
* JWTs are modelled structurally: a signed value together with two
  booleans recording whether `Jwt.verify` with the right secret would
  succeed (signature valid, not expired).
* External capabilities (the python SIFT extractor and comparator) are
  parameters of the service functions: extraction results are passed as
  an `Except`, the comparator as a function argument, so that theorems
  quantifying over the comparator express that a branch never consults it.
* Thrown `Error` values are the constructors of `Err`, one per distinct
  throw site message in the source.
-/

namespace APS

/-- Decidable equality for Except, so that concrete runs of the embedded
operations can be checked by evaluation. -/
instance exceptDecEq {ε α : Type} [DecidableEq ε] [DecidableEq α] :
    DecidableEq (Except ε α) := fun x y =>
  match x, y with
  | .ok a, .ok b =>
    if h : a = b then isTrue (by rw [h])
    else isFalse (fun hc => h (Except.ok.inj hc))
  | .error a, .error b =>
    if h : a = b then isTrue (by rw [h])
    else isFalse (fun hc => h (Except.error.inj hc))
  | .ok _, .error _ => isFalse (fun hc => Except.noConfusion hc)
  | .error _, .ok _ => isFalse (fun hc => Except.noConfusion hc)

/-- Interface SIFTTemplate of sift.helper.ts: keypoints, descriptors and
the feature count reported by the python extractor. -/
structure SIFTKeypoint where
  pt : ℚ × ℚ
  size : ℚ
  angle : ℚ
  response : ℚ
  octave : ℤ
  class_id : ℤ
  deriving Repr, DecidableEq

/-- SIFT template as produced by extractSIFTFeatures. -/
structure SIFTTemplate where
  keypoints : List SIFTKeypoint
  descriptors : List (List ℚ)
  num_features : ℕ
  deriving Repr, DecidableEq

/-- Interface ComparisonResult of sift.helper.ts: the payload returned by
the python compare subprocess. -/
structure ComparisonResult where
  similarity : ℚ
  good_matches : ℕ
  total_matches : ℕ
  features_template1 : ℕ
  features_template2 : ℕ
  deriving Repr, DecidableEq

/-- validateSIFTTemplate of sift.helper.ts. The source first rejects a
null template or null keypoints/descriptors fields; in this typed
embedding those fields always exist, so only the feature-count gate
remains: false when num_features is below minFeatures. -/
def validateSIFTTemplate (template : SIFTTemplate) (minFeatures : ℕ) : Bool :=
  if template.num_features < minFeatures then false else true

/-- Stored template envelope: the JWT produced by
Jwt.sign of a template with algorithm and version fields under
JWT_TEMPLATE_SECRET with expiresIn 365d. The two booleans record whether
Jwt.verify with that secret would accept it (signature intact, not expired). -/
structure TemplateEnvelope where
  template : SIFTTemplate
  algorithm : String
  version : String
  signatureValid : Bool
  notExpired : Bool
  deriving Repr, DecidableEq

/-- User row of the Prisma schema (part_000 migration): serial id, name
fields, unique nickname and email, role, active flag, the stored
fingerprintTemplate envelope, timestamps. -/
structure UserRow where
  id : ℕ
  username : String
  userlastname : String
  usernickname : String
  useremail : String
  userrole : ℤ
  userisativo : Bool
  fingerprintTemplate : TemplateEnvelope
  createdAt : ℕ
  updatedAt : ℕ
  deriving Repr, DecidableEq

/-- Refresh token: Jwt.sign of a userpk claim under JWT_REFRESH_SECRET
with expiresIn 10d; the booleans record whether Jwt.verify would accept it. -/
structure RefreshTokenV where
  userpk : ℕ
  signatureValid : Bool
  notExpired : Bool
  deriving Repr, DecidableEq

/-- Claim set of an access token signed under JWT_SECRET_ACCESS. The
userrole claim is an Option because the two issuance sites in the source
supply different claim objects: loginUser includes userrole, the refresh
flow omits it. -/
structure AccessTokenClaims where
  userpk : ℕ
  usernickname : String
  userrole : Option ℤ
  deriving Repr, DecidableEq

/-- UserSession row of the Prisma schema: owner, unique refresh token,
expiry. -/
structure SessionRow where
  userId : ℕ
  refreshtoken : RefreshTokenV
  expiresAt : ℕ
  deriving Repr, DecidableEq

/-- The persistent store: the User and UserSession tables, plus the serial
id counter feeding User.id. -/
structure Db where
  users : List UserRow
  sessions : List SessionRow
  nextUserId : ℕ
  deriving Repr, DecidableEq

/-- Distinct throw sites of user.service (SIFT version) and the store
errors it can surface, one constructor per distinct error. -/
inductive Err where
  | imagemObrigatoria
  | nicknameOuEmailObrigatorios
  | emailOuNickJaCadastrados
  | userroleInvalido
  | extractionFailed
  | qualidadeInsuficiente
  | usuarioNaoCadastrado
  | usuarioInativo
  | templateSalvoInvalido
  | digitalNaoCorresponde
  | tokenAusente
  | jwtVerifyFailed
  | sessaoNaoEncontrada
  | refreshInvalidoOuExpirado
  | tokenObrigatorio
  | idObrigatorio
  | informeAlgumCampo
  | recordNotFound
  | prismaUniqueViolation
  deriving Repr, DecidableEq

/-- View of a user row as serialized back to the caller. The
fingerprintTemplate field is an Option so that a view that actually
stripped the envelope would be representable as none. -/
structure UserResponse where
  id : ℕ
  username : String
  userlastname : String
  usernickname : String
  useremail : String
  userrole : ℤ
  userisativo : Bool
  fingerprintTemplate : Option TemplateEnvelope
  createdAt : ℕ
  updatedAt : ℕ
  deriving Repr, DecidableEq

/-- Embeds the statement const brace-rest userWithoutSensitiveData = user
of user.service: an object-rest destructuring that plucks no property
copies every enumerable own property of the row, the fingerprintTemplate
envelope included. -/
def userWithoutSensitiveData (u : UserRow) : UserResponse :=
  { id := u.id
    username := u.username
    userlastname := u.userlastname
    usernickname := u.usernickname
    useremail := u.useremail
    userrole := u.userrole
    userisativo := u.userisativo
    fingerprintTemplate := some u.fingerprintTemplate
    createdAt := u.createdAt
    updatedAt := u.updatedAt }

/-- Input object of createUser. The userrole arrives as number or string
and is coerced with Number(); none models a value whose coercion is NaN. -/
structure CreateUserData where
  username : String
  userlastname : String
  usernickname : String
  useremail : String
  userrole : Option ℤ
  deriving Repr, DecidableEq

/-- prisma.user.create against the migration of part_000: the unique
indexes on useremail and usernickname are enforced by the store itself,
so an insert conflicting with an existing row raises a unique-constraint
violation (Prisma error P2002); otherwise the row is appended with the
next serial id. -/
def prismaUserCreate (db : Db) (data : CreateUserData) (role : ℤ)
    (envelope : TemplateEnvelope) (now : ℕ) : Except Err (UserRow × Db) :=
  if db.users.any (fun u =>
      u.useremail == data.useremail || u.usernickname == data.usernickname) then
    .error .prismaUniqueViolation
  else
    let row : UserRow :=
      { id := db.nextUserId
        username := data.username
        userlastname := data.userlastname
        usernickname := data.usernickname
        useremail := data.useremail
        userrole := role
        userisativo := true
        fingerprintTemplate := envelope
        createdAt := now
        updatedAt := now }
    .ok (row, { db with users := db.users ++ [row], nextUserId := db.nextUserId + 1 })

/-- createUser of user.service (SIFT version). dbCheck is the store state
seen by the findFirst pre-check and dbInsert the state seen by
prisma.user.create; in a serial execution the two coincide, and a
concurrent enrollment committing between the two queries is modelled by a
dbInsert that extends dbCheck. The extraction result of the python
subprocess is a parameter. Note that the store error raised at insert
time propagates unhandled: the source wraps no try/catch around
prisma.user.create. -/
def createUser (dbCheck dbInsert : Db) (data : CreateUserData)
    (hasImage : Bool) (extractResult : Except Unit SIFTTemplate) (now : ℕ) :
    Except Err (UserResponse × Db) :=
  if hasImage = false then .error .imagemObrigatoria
  else if dbCheck.users.any (fun u =>
      u.useremail == data.useremail || u.usernickname == data.usernickname) then
    .error .emailOuNickJaCadastrados
  else
    match data.userrole with
    | none => .error .userroleInvalido
    | some r =>
      if ¬ (r = 1 ∨ r = 2 ∨ r = 3) then .error .userroleInvalido
      else
        match extractResult with
        | .error _ => .error .extractionFailed
        | .ok siftTemplate =>
          if validateSIFTTemplate siftTemplate 50 = false then
            .error .qualidadeInsuficiente
          else
            let templateToken : TemplateEnvelope :=
              { template := siftTemplate
                algorithm := "SIFT"
                version := "1.0"
                signatureValid := true
                notExpired := true }
            match prismaUserCreate dbInsert data r templateToken now with
            | .error e => .error e
            | .ok (row, db2) => .ok (userWithoutSensitiveData row, db2)

/-- Login request body: optional email and optional nickname. -/
structure LoginData where
  useremail : Option String
  usernickname : Option String
  deriving Repr, DecidableEq

/-- The OR condition assembled by loginUser: one equality clause per
supplied identifier field. -/
def loginMatches (data : LoginData) (u : UserRow) : Bool :=
  (match data.useremail with
   | some e => u.useremail == e
   | none => false) ||
  (match data.usernickname with
   | some n => u.usernickname == n
   | none => false)

/-- Decoding of the stored envelope inside loginUser: Jwt.verify under
JWT_TEMPLATE_SECRET, then the algorithm-tag check; the inner throw for a
non-SIFT tag is raised inside the same try block, so both failures are
caught by the catch and surface as the single invalid-template error. -/
def decodeStoredTemplate (env : TemplateEnvelope) : Except Err SIFTTemplate :=
  if env.signatureValid && env.notExpired then
    if env.algorithm ≠ "SIFT" then .error .templateSalvoInvalido
    else .ok env.template
  else .error .templateSalvoInvalido

/-- Successful login payload: the user view, both tokens, and the
biometricInfo diagnostics block; matchCount embeds the matches property
of biometricInfo, renamed because matches is a reserved word here. -/
structure LoginSuccess where
  user : UserResponse
  accessToken : AccessTokenClaims
  refreshToken : RefreshTokenV
  algorithm : String
  similarity : ℚ
  matchCount : ℕ
  features : ℕ
  deriving Repr, DecidableEq

/-- loginUser of user.service (SIFT version), returning the outcome
together with the final store state. cmp is the external python
comparator; extractResult the outcome of extractSIFTFeatures on the
submitted image. The accept thresholds are the source constants
SIMILARITY_THRESHOLD = 0.30 and MIN_MATCHES = 15; on accept a session row
with expiry now + 10 days is inserted, on any failure the store is
untouched. -/
def loginUser (db : Db) (data : LoginData) (hasImage : Bool)
    (extractResult : Except Unit SIFTTemplate)
    (cmp : SIFTTemplate → SIFTTemplate → ComparisonResult) (now : ℕ) :
    Except Err LoginSuccess × Db :=
  if hasImage = false then (.error .imagemObrigatoria, db)
  else if data.usernickname = none ∧ data.useremail = none then
    (.error .nicknameOuEmailObrigatorios, db)
  else
    match db.users.find? (fun u => loginMatches data u) with
    | none => (.error .usuarioNaoCadastrado, db)
    | some user =>
      if user.userisativo = false then (.error .usuarioInativo, db)
      else
        match decodeStoredTemplate user.fingerprintTemplate with
        | .error e => (.error e, db)
        | .ok storedTemplate =>
          match extractResult with
          | .error _ => (.error .extractionFailed, db)
          | .ok loginTemplate =>
            if validateSIFTTemplate loginTemplate 30 = false then
              (.error .qualidadeInsuficiente, db)
            else
              let comparison := cmp storedTemplate loginTemplate
              if comparison.similarity < 3 / 10 ∨ comparison.good_matches < 15 then
                (.error .digitalNaoCorresponde, db)
              else
                let acessToken : AccessTokenClaims :=
                  { userpk := user.id
                    usernickname := user.usernickname
                    userrole := some user.userrole }
                let refreshToken : RefreshTokenV :=
                  { userpk := user.id, signatureValid := true, notExpired := true }
                let session : SessionRow :=
                  { userId := user.id, refreshtoken := refreshToken
                    expiresAt := now + 10 }
                (.ok
                  { user := userWithoutSensitiveData user
                    accessToken := acessToken
                    refreshToken := refreshToken
                    algorithm := "SIFT"
                    similarity := comparison.similarity
                    matchCount := comparison.good_matches
                    features := loginTemplate.num_features },
                 { db with sessions := db.sessions ++ [session] })

/-- Successful refresh payload: the nickname echoed as user, plus the new
access token. -/
structure RefreshSuccess where
  user : String
  accessToken : AccessTokenClaims
  deriving Repr, DecidableEq

/-- Body of the try block of refreshToken: verify the token under
JWT_REFRESH_SECRET (jwtVerifyFailed models the library exception), look
the session up by its unique refreshtoken with the owning user included,
fail with the session-not-found throw when either is absent, otherwise
sign a new access token carrying only userpk and usernickname. -/
def refreshTokenTry (db : Db) (tok : RefreshTokenV) : Except Err RefreshSuccess :=
  if (tok.signatureValid && tok.notExpired) = false then .error .jwtVerifyFailed
  else
    match db.sessions.find? (fun s => s.refreshtoken == tok) with
    | none => .error .sessaoNaoEncontrada
    | some session =>
      match db.users.find? (fun u => u.id == session.userId) with
      | none => .error .sessaoNaoEncontrada
      | some user =>
        .ok
          { user := user.usernickname
            accessToken :=
              { userpk := user.id
                usernickname := user.usernickname
                userrole := none } }

/-- refreshToken of user.service: the missing-token guard sits outside the
try block, and the surrounding catch remaps every failure raised inside
the try block, the session-not-found throw included, to the single
invalid-or-expired refresh error. -/
def refreshToken (db : Db) (tok : Option RefreshTokenV) : Except Err RefreshSuccess :=
  match tok with
  | none => .error .tokenAusente
  | some t =>
    match refreshTokenTry db t with
    | .ok r => .ok r
    | .error _ => .error .refreshInvalidoOuExpirado

/-- logout of user.service: deleteMany of every session row holding the
given refresh token; the store state is returned alongside the message. -/
def logout (db : Db) (tok : Option RefreshTokenV) : Except Err String × Db :=
  match tok with
  | none => (.error .tokenObrigatorio, db)
  | some t =>
    (.ok "Sessão encerrada com sucesso.",
     { db with sessions := db.sessions.filter (fun s => s.refreshtoken != t) })

/-- Update request body: one Option per property name the service code
mentions; none models an absent key. -/
structure UpdatePayload where
  userpk : Option ℕ
  usernickname : Option String
  useremail : Option String
  fingerprintTemplate : Option TemplateEnvelope
  createdAt : Option ℕ
  updatedAt : Option ℕ
  username : Option String
  userlastname : Option String
  userrole : Option ℤ
  userisativo : Option Bool
  deriving Repr, DecidableEq

/-- updateUser of user.service: the destructuring discards userpk,
usernickname, useremail, fingerprintTemplate, createdAt and updatedAt;
an update object left empty by that stripping is rejected; otherwise the
surviving fields overwrite the row found by id (prisma.user.update fails
when no row matches). The userId = 0 case models the JS falsiness guard. -/
def updateUser (db : Db) (userId : ℕ) (data : UpdatePayload) (now : ℕ) :
    Except Err (UserRow × Db) :=
  if userId = 0 then .error .idObrigatorio
  else if data.username = none ∧ data.userlastname = none ∧
      data.userrole = none ∧ data.userisativo = none then
    .error .informeAlgumCampo
  else
    match db.users.find? (fun u => u.id == userId) with
    | none => .error .recordNotFound
    | some u =>
      let u2 : UserRow :=
        { u with
          username := data.username.getD u.username
          userlastname := data.userlastname.getD u.userlastname
          userrole := data.userrole.getD u.userrole
          userisativo := data.userisativo.getD u.userisativo
          updatedAt := now }
      .ok (u2, { db with users := db.users.map (fun v => if v.id = userId then u2 else v) })

/-- Histogram template of the sharp-based service variant: the raw JSONB
value holding the 256-bin grayscale histogram. -/
structure HistTemplate where
  histogram : List ℚ
  deriving Repr, DecidableEq

/-- Accumulated sum of squared bin differences computed by the loop of
compareTemplates. -/
def sumOfSquares (h1 h2 : List ℚ) : ℚ :=
  (List.zipWith (fun a b => (a - b) ^ 2) h1 h2).sum

/-- Math.sqrt of the accumulated sum: the euclidean distance between the
two histogram vectors. -/
noncomputable def euclideanDistance (h1 h2 : List ℚ) : ℝ :=
  Real.sqrt ((sumOfSquares h1 h2 : ℚ) : ℝ)

/-- compareTemplates of the sharp-based service variant: returns 0 when
either histogram is missing or not of length 256, otherwise the
similarity score 1 / (1 + euclidean distance). In this typed embedding
the null checks of the source collapse into the length checks. -/
noncomputable def compareTemplates (tA tB : HistTemplate) : ℝ :=
  if tA.histogram.length ≠ 256 ∨ tB.histogram.length ≠ 256 then 0
  else 1 / (1 + euclideanDistance tA.histogram tB.histogram)

/-- compareBinaryTemplates of part_003: proportion of positions at which
the two equal-length binary vectors agree; 0 for mismatched or empty
shapes. -/
def compareBinaryTemplates (templateA templateB : List ℚ) : ℚ :=
  if templateA.length ≠ templateB.length ∨ templateA.length = 0 then 0
  else
    ((List.zipWith (fun a b => if a = b then (1 : ℕ) else 0) templateA templateB).sum : ℚ)
      / (templateA.length : ℚ)

/-! Concrete fixtures used by witnesses and counterexamples. -/

/-- Sample SIFT template of good quality (60 detected features). -/
def tmplOk : SIFTTemplate :=
  { keypoints := [], descriptors := [[1, 2], [3, 4]], num_features := 60 }

/-- Sample SIFT template below both quality gates (10 features). -/
def tmplWeak : SIFTTemplate :=
  { keypoints := [], descriptors := [[1, 2]], num_features := 10 }

/-- Valid stored envelope holding tmplOk. -/
def envOk : TemplateEnvelope :=
  { template := tmplOk, algorithm := "SIFT", version := "1.0"
    signatureValid := true, notExpired := true }

/-- Enrolled sample user. -/
def aliceRow : UserRow :=
  { id := 1, username := "Alice", userlastname := "Silva"
    usernickname := "alice", useremail := "alice@mail.com", userrole := 2
    userisativo := true, fingerprintTemplate := envOk
    createdAt := 0, updatedAt := 0 }

/-- Empty store. -/
def dbEmpty : Db := { users := [], sessions := [], nextUserId := 1 }

/-- Store holding only the sample user. -/
def dbAlice : Db := { users := [aliceRow], sessions := [], nextUserId := 2 }

/-- Sample refresh token bound to the sample user, valid and unexpired. -/
def tokAlice : RefreshTokenV := { userpk := 1, signatureValid := true, notExpired := true }

/-- Store holding the sample user and one live session for tokAlice. -/
def dbAliceSession : Db :=
  { users := [aliceRow]
    sessions := [{ userId := 1, refreshtoken := tokAlice, expiresAt := 30 }]
    nextUserId := 2 }

/-- Login body identifying the sample user by email. -/
def aliceLoginData : LoginData := { useremail := some "alice@mail.com", usernickname := none }

/-- Comparator stub reporting a strong match. -/
def cmpGood : SIFTTemplate → SIFTTemplate → ComparisonResult := fun _ _ =>
  { similarity := 9 / 10, good_matches := 20, total_matches := 25
    features_template1 := 60, features_template2 := 60 }

/-- Comparator stub reporting a weak match. -/
def cmpBad : SIFTTemplate → SIFTTemplate → ComparisonResult := fun _ _ =>
  { similarity := 1 / 10, good_matches := 3, total_matches := 25
    features_template1 := 60, features_template2 := 60 }

/-- The login result produced for the sample user under cmpGood at time 5. -/
def aliceLoginOk : LoginSuccess :=
  { user := userWithoutSensitiveData aliceRow
    accessToken := { userpk := 1, usernickname := "alice", userrole := some 2 }
    refreshToken := tokAlice
    algorithm := "SIFT", similarity := 9 / 10, matchCount := 20, features := 60 }

/-- The store state after that login: one session appended, expiring at 15. -/
def dbAliceAfterLogin : Db :=
  { users := [aliceRow]
    sessions := [{ userId := 1, refreshtoken := tokAlice, expiresAt := 15 }]
    nextUserId := 2 }

/-- Enrollment body for a second sample user. -/
def bobData : CreateUserData :=
  { username := "Bob", userlastname := "Souza", usernickname := "bob"
    useremail := "bob@mail.com", userrole := some 1 }

/-- Row for the second sample user, as a concurrently committed duplicate. -/
def bobRow : UserRow :=
  { id := 1, username := "Bob", userlastname := "Souza"
    usernickname := "bob", useremail := "bob@mail.com", userrole := 1
    userisativo := true, fingerprintTemplate := envOk
    createdAt := 0, updatedAt := 0 }

/-- Store already holding the duplicate of bobData, as seen at insert time. -/
def dbBob : Db := { users := [bobRow], sessions := [], nextUserId := 2 }

/-! Claim theorems. -/

/-- C1: the claim says the created-User view and the login response never
include the stored fingerprint template envelope. The code slip is the
object-rest destructuring that plucks no property: both views keep the
envelope. Evaluating both flows at a concrete input shows the returned
view carries the full envelope (some ..., not none). -/
theorem c1_views_expose_template_envelope :
    ((createUser dbEmpty dbEmpty bobData true (.ok tmplOk) 5).map
      (fun p => p.1.fingerprintTemplate)) =
      .ok (some { template := tmplOk, algorithm := "SIFT", version := "1.0"
                  signatureValid := true, notExpired := true }) ∧
    ((loginUser dbAlice aliceLoginData true (.ok tmplOk) cmpGood 5).1.map
      (fun r => r.user.fingerprintTemplate)) = .ok (some envOk) := by
  constructor
  · norm_num [createUser, prismaUserCreate, validateSIFTTemplate,
      userWithoutSensitiveData, dbEmpty, bobData, tmplOk, Except.map]
  · norm_num [loginUser, loginMatches, decodeStoredTemplate, validateSIFTTemplate,
      userWithoutSensitiveData, dbAlice, aliceRow, envOk, aliceLoginData, cmpGood,
      tmplOk, Except.map, Option.some_ne_none]

/-- C2 counterexample: with an empty store at pre-check time and a
concurrently committed duplicate visible at insert time, createUser
surfaces the uncaught store constraint violation, which is a different
error from the DuplicateError produced by the pre-check. -/
theorem c2_insert_race_counterexample :
    createUser dbEmpty dbBob bobData true (.ok tmplOk) 5 =
      .error .prismaUniqueViolation ∧
    (Except.error Err.prismaUniqueViolation : Except Err (UserResponse × Db)) ≠
      .error .emailOuNickJaCadastrados := by
  refine ⟨rfl, by decide⟩

/-- C3 counterexample: comparing a valid 256-bin histogram against a
3-entry vector silently yields the similarity score 0; compareTemplates
is a total score-returning function and raises no
AlgorithmMismatchError on incompatible shapes. -/
theorem c3_shape_mismatch_counterexample :
    compareTemplates { histogram := List.replicate 256 0 }
      { histogram := [1, 2, 3] } = 0 := by
  have h : ({ histogram := [1, 2, 3] } : HistTemplate).histogram.length ≠ 256 := by
    norm_num
  unfold compareTemplates
  rw [if_pos (Or.inr h)]

/-- C8 counterexample: after logout of the live session, refreshing with
the same still-valid token fails with the generic invalid-or-expired
refresh error, not with a distinct session-not-found error: the inner
session-not-found throw is remapped by the surrounding catch. -/
theorem c8_revocation_error_counterexample :
    refreshToken (logout dbAliceSession (some tokAlice)).2 (some tokAlice) =
      .error .refreshInvalidoOuExpirado ∧
    refreshToken (logout dbAliceSession (some tokAlice)).2 (some tokAlice) ≠
      .error .sessaoNaoEncontrada := by
  refine ⟨rfl, by decide⟩

/-- C9 counterexample: the refresh flow succeeds on a live session yet the
access token it issues carries no userrole claim, falsifying the claim
that every issued access token carries the full claim set. -/
theorem c9_refresh_token_missing_role_counterexample :
    (refreshToken dbAliceSession (some tokAlice)).map
      (fun r => r.accessToken.userrole) = .ok none := by
  rfl

/-- Helper: a find? for a given refresh token over a list from which every
row holding that token was filtered out yields nothing. -/
theorem find?_refreshtoken_filter (l : List SessionRow) (t : RefreshTokenV) :
    (l.filter (fun s => s.refreshtoken != t)).find?
      (fun s => s.refreshtoken == t) = none := by
  rw [List.find?_eq_none]
  intro x hx
  have h := (List.mem_filter.mp hx).2
  simp only [bne_iff_ne, ne_eq] at h
  simpa using h

/-- C8 amended: after logout of a refresh token, a refresh with the same
signature-valid unexpired token always fails, the session lookup inside
the try block raising the session-not-found error; but the surrounding
catch remaps it, so the surfaced failure is the generic
invalid-or-expired refresh error rather than a distinct
SessionNotFoundError. -/
theorem c8_revocation_amended (db : Db) (t : RefreshTokenV)
    (hsig : t.signatureValid = true) (hexp : t.notExpired = true) :
    refreshTokenTry (logout db (some t)).2 t = .error .sessaoNaoEncontrada ∧
    refreshToken (logout db (some t)).2 (some t) =
      .error .refreshInvalidoOuExpirado := by
  have hfind : ((logout db (some t)).2).sessions.find?
      (fun s => s.refreshtoken == t) = none := by
    show (db.sessions.filter (fun s => s.refreshtoken != t)).find?
      (fun s => s.refreshtoken == t) = none
    exact find?_refreshtoken_filter db.sessions t
  have h1 : refreshTokenTry (logout db (some t)).2 t =
      .error .sessaoNaoEncontrada := by
    unfold refreshTokenTry
    rw [hsig, hexp]
    simp only [Bool.and_self, hfind]
    simp
  refine ⟨h1, ?_⟩
  show (match refreshTokenTry (logout db (some t)).2 t with
        | .ok r => (.ok r : Except Err RefreshSuccess)
        | .error _ => .error .refreshInvalidoOuExpirado) =
      .error .refreshInvalidoOuExpirado
  rw [h1]

/-- C8 amended witness: the concrete logout-then-refresh run on the
sample session. -/
theorem c8_revocation_amended_witness :
    refreshTokenTry (logout dbAliceSession (some tokAlice)).2 tokAlice =
      .error .sessaoNaoEncontrada ∧
    refreshToken (logout dbAliceSession (some tokAlice)).2 (some tokAlice) =
      .error .refreshInvalidoOuExpirado :=
  c8_revocation_amended dbAliceSession tokAlice rfl rfl

/-- C10: whatever the caller supplies, an update never changes the stored
nickname, email, template envelope or creation timestamp (the
destructuring strips them), and a payload containing only such forbidden
fields is rejected with the no-field error. -/
theorem c10_update_preserves_protected_fields :
    (∀ (db : Db) (userId : ℕ) (data : UpdatePayload) (now : ℕ)
        (u u2 : UserRow) (db2 : Db),
      db.users.find? (fun v => v.id == userId) = some u →
      updateUser db userId data now = .ok (u2, db2) →
      u2.usernickname = u.usernickname ∧ u2.useremail = u.useremail ∧
        u2.fingerprintTemplate = u.fingerprintTemplate ∧
        u2.createdAt = u.createdAt) ∧
    (∀ (db : Db) (userId : ℕ) (data : UpdatePayload) (now : ℕ),
      userId ≠ 0 →
      data.username = none → data.userlastname = none →
      data.userrole = none → data.userisativo = none →
      updateUser db userId data now = .error .informeAlgumCampo) := by
  constructor
  · intro db userId data now u u2 db2 hfind h
    unfold updateUser at h
    split at h
    · simp at h
    · split at h
      · simp at h
      · rw [hfind] at h
        simp only [Except.ok.injEq, Prod.mk.injEq] at h
        obtain ⟨hu2, -⟩ := h
        rw [← hu2]
        exact ⟨rfl, rfl, rfl, rfl⟩
  · intro db userId data now h0 h1 h2 h3 h4
    unfold updateUser
    rw [if_neg h0, if_pos ⟨h1, h2, h3, h4⟩]

/-- Payload touching only an allowed field (username). -/
def updAllowed : UpdatePayload :=
  { userpk := none, usernickname := none, useremail := none
    fingerprintTemplate := none, createdAt := none, updatedAt := none
    username := some "Alicia", userlastname := none, userrole := none
    userisativo := none }

/-- Payload touching only forbidden fields. -/
def updForbidden : UpdatePayload :=
  { userpk := some 7, usernickname := some "mallory", useremail := some "m@mail.com"
    fingerprintTemplate := none, createdAt := some 99, updatedAt := none
    username := none, userlastname := none, userrole := none
    userisativo := none }

/-- The sample user row after the allowed update at time 9. -/
def aliceUpdatedRow : UserRow := { aliceRow with username := "Alicia", updatedAt := 9 }

/-- The store after that update. -/
def dbAliceUpdated : Db := { users := [aliceUpdatedRow], sessions := [], nextUserId := 2 }

/-- C10 witness: the concrete allowed update preserves the protected
fields, and the concrete forbidden-only update is rejected. -/
theorem c10_update_preserves_protected_fields_witness :
    (aliceUpdatedRow.usernickname = aliceRow.usernickname ∧
      aliceUpdatedRow.useremail = aliceRow.useremail ∧
      aliceUpdatedRow.fingerprintTemplate = aliceRow.fingerprintTemplate ∧
      aliceUpdatedRow.createdAt = aliceRow.createdAt) ∧
    updateUser dbAlice 1 updForbidden 9 = .error .informeAlgumCampo := by
  constructor
  · exact c10_update_preserves_protected_fields.1 dbAlice 1 updAllowed 9
      aliceRow aliceUpdatedRow dbAliceUpdated rfl (by rfl)
  · exact c10_update_preserves_protected_fields.2 dbAlice 1 updForbidden 9
      (by decide) rfl rfl rfl rfl

/-- Helper: every run of loginUser either leaves the store untouched or
returns a success value; the only store write sits in the accept branch. -/
theorem loginUser_error_or_ok (db : Db) (data : LoginData) (hasImage : Bool)
    (er : Except Unit SIFTTemplate)
    (cmp : SIFTTemplate → SIFTTemplate → ComparisonResult) (now : ℕ) :
    (loginUser db data hasImage er cmp now).2 = db ∨
    ∃ r, (loginUser db data hasImage er cmp now).1 = .ok r := by
  unfold loginUser
  repeat' split
  all_goals try first
    | exact Or.inl rfl
    | exact Or.inr ⟨_, rfl⟩
  all_goals
    dsimp only
    split
    · exact Or.inl rfl
    · exact Or.inr ⟨_, rfl⟩

/-- C7: a login failing at any step leaves the persistent state exactly
as it was; the session insert happens only after the accept decision. -/
theorem c7_failed_login_leaves_store_unchanged
    (db : Db) (data : LoginData) (hasImage : Bool)
    (er : Except Unit SIFTTemplate)
    (cmp : SIFTTemplate → SIFTTemplate → ComparisonResult) (now : ℕ) (e : Err)
    (h : (loginUser db data hasImage er cmp now).1 = .error e) :
    (loginUser db data hasImage er cmp now).2 = db := by
  rcases loginUser_error_or_ok db data hasImage er cmp now with h2 | ⟨r, hr⟩
  · exact h2
  · rw [hr] at h
    simp at h

/-- C7 witness: a concrete failing login (missing identifier) leaves the
sample store unchanged. -/
theorem c7_failed_login_leaves_store_unchanged_witness :
    (loginUser dbAlice { useremail := none, usernickname := none } true
      (.ok tmplOk) cmpGood 5).2 = dbAlice :=
  c7_failed_login_leaves_store_unchanged dbAlice
    { useremail := none, usernickname := none } true (.ok tmplOk) cmpGood 5
    .nicknameOuEmailObrigatorios rfl

/-- C2 amended: when the pre-check sees no duplicate but the store state
at insert time holds one, createUser propagates the unique-constraint
violation of the store unmapped, instead of remapping it to the
DuplicateError of the pre-check. -/
theorem c2_insert_race_amended (dbCheck dbInsert : Db) (data : CreateUserData)
    (r : ℤ) (t : SIFTTemplate) (now : ℕ)
    (hpre : dbCheck.users.any (fun u =>
      u.useremail == data.useremail || u.usernickname == data.usernickname) = false)
    (hrole : data.userrole = some r) (hr3 : r = 1 ∨ r = 2 ∨ r = 3)
    (hq : validateSIFTTemplate t 50 = true)
    (hdup : dbInsert.users.any (fun u =>
      u.useremail == data.useremail || u.usernickname == data.usernickname) = true) :
    createUser dbCheck dbInsert data true (.ok t) now =
      .error .prismaUniqueViolation := by
  unfold createUser
  rw [if_neg (by simp : ¬ (true = false))]
  rw [hpre]
  rw [if_neg (by simp : ¬ (false = true))]
  rw [hrole]
  simp only
  rw [if_neg (not_not.mpr hr3), hq]
  rw [if_neg (by simp : ¬ (true = false))]
  unfold prismaUserCreate
  rw [hdup]
  rw [if_pos rfl]

/-- C2 amended witness: the concrete race run of the counterexample,
through the amended theorem. -/
theorem c2_insert_race_amended_witness :
    createUser dbEmpty dbBob bobData true (.ok tmplOk) 5 =
      .error .prismaUniqueViolation :=
  c2_insert_race_amended dbEmpty dbBob bobData 1 tmplOk 5 rfl rfl
    (Or.inl rfl) rfl rfl

/-- Helper: inversion of a successful login; the access token issued by
loginUser carries userpk, usernickname and userrole of the matched user. -/
theorem loginUser_ok_access_token {db : Db} {data : LoginData} {hasImage : Bool}
    {er : Except Unit SIFTTemplate}
    {cmp : SIFTTemplate → SIFTTemplate → ComparisonResult} {now : ℕ}
    {r : LoginSuccess} {db2 : Db}
    (h : loginUser db data hasImage er cmp now = (.ok r, db2)) :
    ∃ u, db.users.find? (fun v => loginMatches data v) = some u ∧
      r.accessToken = { userpk := u.id, usernickname := u.usernickname
                        userrole := some u.userrole } := by
  unfold loginUser at h
  split at h
  · simp at h
  split at h
  · simp at h
  split at h
  · simp at h
  rename_i user heq
  split at h
  · simp at h
  split at h
  · simp at h
  split at h
  · simp at h
  split at h
  · simp at h
  dsimp only at h
  split at h
  · simp at h
  simp only [Prod.mk.injEq, Except.ok.injEq] at h
  exact ⟨user, heq, by rw [← h.1]⟩

/-- Helper: inversion of a successful try-block of the refresh flow; the
freshly signed access token carries no userrole claim. -/
theorem refreshTokenTry_ok_role {db : Db} {t : RefreshTokenV} {r : RefreshSuccess}
    (h : refreshTokenTry db t = .ok r) : r.accessToken.userrole = none := by
  unfold refreshTokenTry at h
  split at h
  · simp at h
  split at h
  · simp at h
  split at h
  · simp at h
  simp only [Except.ok.injEq] at h
  rw [← h]

/-- C9 amended: access tokens issued by login carry the full claim set
userId, nickname and role of the matched user, but access tokens issued
by the refresh flow carry only userId and nickname; the role claim is
omitted there. -/
theorem c9_access_token_claims_amended :
    (∀ (db : Db) (data : LoginData) (hasImage : Bool)
        (er : Except Unit SIFTTemplate)
        (cmp : SIFTTemplate → SIFTTemplate → ComparisonResult) (now : ℕ)
        (r : LoginSuccess) (db2 : Db),
      loginUser db data hasImage er cmp now = (.ok r, db2) →
      ∃ u, db.users.find? (fun v => loginMatches data v) = some u ∧
        r.accessToken = { userpk := u.id, usernickname := u.usernickname
                          userrole := some u.userrole }) ∧
    (∀ (db : Db) (tok : Option RefreshTokenV) (r : RefreshSuccess),
      refreshToken db tok = .ok r → r.accessToken.userrole = none) := by
  constructor
  · intro db data hasImage er cmp now r db2 h
    exact loginUser_ok_access_token h
  · intro db tok r h
    match tok with
    | none => simp [refreshToken] at h
    | some t =>
      unfold refreshToken at h
      dsimp only at h
      split at h
      · rename_i r0 heq
        simp only [Except.ok.injEq] at h
        rw [← h]
        exact refreshTokenTry_ok_role heq
      · simp at h

/-- C9 amended witness: the sample login carries the full claim set; the
sample refresh-issued token has no role claim. -/
theorem c9_access_token_claims_amended_witness :
    (∃ u, dbAlice.users.find? (fun v => loginMatches aliceLoginData v) = some u ∧
      aliceLoginOk.accessToken = { userpk := u.id, usernickname := u.usernickname
                                   userrole := some u.userrole }) ∧
    ({ user := "alice"
       accessToken := { userpk := 1, usernickname := "alice", userrole := none } }
        : RefreshSuccess).accessToken.userrole = none := by
  constructor
  · exact c9_access_token_claims_amended.1 dbAlice aliceLoginData true (.ok tmplOk)
      cmpGood 5 aliceLoginOk dbAliceAfterLogin
      (by norm_num [loginUser, loginMatches, decodeStoredTemplate,
        validateSIFTTemplate, userWithoutSensitiveData, dbAlice, aliceRow, envOk,
        aliceLoginData, cmpGood, tmplOk, tokAlice, aliceLoginOk, dbAliceAfterLogin,
        Option.some_ne_none])
  · exact c9_access_token_claims_amended.2 dbAliceSession (some tokAlice) _ rfl

/-- Helper: a successful user lookup implies at least one identifier was
supplied, so the missing-identifier guard cannot fire. -/
theorem loginMatches_not_both_none {db : Db} {data : LoginData} {u : UserRow}
    (hfind : db.users.find? (fun v => loginMatches data v) = some u) :
    ¬ (data.usernickname = none ∧ data.useremail = none) := by
  rintro ⟨h1, h2⟩
  have hm := List.find?_some hfind
  simp [loginMatches, h1, h2] at hm

/-- C5: a template below the configured minimum feature count is rejected
with the quality error before any comparison is attempted, at login
(threshold 30; the conclusion holds for every comparator, so none is
consulted) and at enrollment (threshold 50); and the enrollment gate is
at least as strict as the login gate. -/
theorem c5_quality_gate :
    (∀ (db : Db) (data : LoginData)
        (cmp : SIFTTemplate → SIFTTemplate → ComparisonResult) (now : ℕ)
        (u : UserRow) (st lt : SIFTTemplate),
      db.users.find? (fun v => loginMatches data v) = some u →
      u.userisativo = true →
      decodeStoredTemplate u.fingerprintTemplate = .ok st →
      lt.num_features < 30 →
      loginUser db data true (.ok lt) cmp now =
        (.error .qualidadeInsuficiente, db)) ∧
    (∀ (dbCheck dbInsert : Db) (data : CreateUserData) (r : ℤ)
        (t : SIFTTemplate) (now : ℕ),
      dbCheck.users.any (fun u =>
        u.useremail == data.useremail || u.usernickname == data.usernickname) = false →
      data.userrole = some r → (r = 1 ∨ r = 2 ∨ r = 3) →
      t.num_features < 50 →
      createUser dbCheck dbInsert data true (.ok t) now =
        .error .qualidadeInsuficiente) ∧
    (∀ t : SIFTTemplate,
      validateSIFTTemplate t 50 = true → validateSIFTTemplate t 30 = true) := by
  refine ⟨?_, ?_, ?_⟩
  · intro db data cmp now u st lt hfind hact hdec hlow
    unfold loginUser
    rw [if_neg (by simp : ¬ (true = false)),
      if_neg (loginMatches_not_both_none hfind)]
    simp only [hfind]
    rw [if_neg (by simp [hact] : ¬ (u.userisativo = false))]
    simp only [hdec]
    rw [if_pos (by rw [validateSIFTTemplate, if_pos hlow] :
      validateSIFTTemplate lt 30 = false)]
  · intro dbCheck dbInsert data r t now hpre hrole hr3 hlow
    unfold createUser
    rw [if_neg (by simp : ¬ (true = false)), hpre,
      if_neg (by simp : ¬ (false = true)), hrole]
    simp only
    rw [if_neg (not_not.mpr hr3)]
    rw [if_pos (by rw [validateSIFTTemplate, if_pos hlow] :
      validateSIFTTemplate t 50 = false)]
  · intro t h
    by_cases h50 : t.num_features < 50
    · rw [validateSIFTTemplate, if_pos h50] at h
      simp at h
    · rw [validateSIFTTemplate, if_neg (by omega : ¬ t.num_features < 30)]

/-- C5 witness: the weak sample template (10 features) is rejected by the
concrete login and the concrete enrollment before any comparison, and the
strong sample template passes both gates. -/
theorem c5_quality_gate_witness :
    loginUser dbAlice aliceLoginData true (.ok tmplWeak) cmpGood 5 =
      (.error .qualidadeInsuficiente, dbAlice) ∧
    createUser dbEmpty dbEmpty bobData true (.ok tmplWeak) 5 =
      .error .qualidadeInsuficiente ∧
    validateSIFTTemplate tmplOk 30 = true := by
  refine ⟨?_, ?_, ?_⟩
  · exact c5_quality_gate.1 dbAlice aliceLoginData cmpGood 5 aliceRow tmplOk
      tmplWeak (by rfl) rfl rfl (by decide)
  · exact c5_quality_gate.2.1 dbEmpty dbEmpty bobData 1 tmplWeak 5 rfl rfl
      (Or.inl rfl) (by decide)
  · exact c5_quality_gate.2.2 tmplOk rfl

/-- C6: a login attempt that reaches the match decision is accepted, with
tokens issued and one session row created, exactly when the comparator
reports similarity at least 0.30 and at least 15 good matches; otherwise
it fails with the no-match error and the store is untouched. -/
theorem c6_login_decision_policy
    (db : Db) (data : LoginData) (er : Except Unit SIFTTemplate)
    (cmp : SIFTTemplate → SIFTTemplate → ComparisonResult) (now : ℕ)
    (u : UserRow) (st lt : SIFTTemplate)
    (hfind : db.users.find? (fun v => loginMatches data v) = some u)
    (hact : u.userisativo = true)
    (hdec : decodeStoredTemplate u.fingerprintTemplate = .ok st)
    (her : er = .ok lt)
    (hq : validateSIFTTemplate lt 30 = true) :
    ((3 / 10 ≤ (cmp st lt).similarity ∧ 15 ≤ (cmp st lt).good_matches) →
      loginUser db data true er cmp now = (.ok
        { user := userWithoutSensitiveData u
          accessToken := { userpk := u.id, usernickname := u.usernickname
                           userrole := some u.userrole }
          refreshToken := { userpk := u.id, signatureValid := true
                            notExpired := true }
          algorithm := "SIFT"
          similarity := (cmp st lt).similarity
          matchCount := (cmp st lt).good_matches
          features := lt.num_features },
        { db with sessions := db.sessions ++
            [{ userId := u.id
               refreshtoken := { userpk := u.id, signatureValid := true
                                 notExpired := true }
               expiresAt := now + 10 }] })) ∧
    (((cmp st lt).similarity < 3 / 10 ∨ (cmp st lt).good_matches < 15) →
      loginUser db data true er cmp now =
        (.error .digitalNaoCorresponde, db)) := by
  subst her
  have base : loginUser db data true (.ok lt) cmp now =
      (if (cmp st lt).similarity < 3 / 10 ∨ (cmp st lt).good_matches < 15 then
        (.error .digitalNaoCorresponde, db)
      else (.ok
        { user := userWithoutSensitiveData u
          accessToken := { userpk := u.id, usernickname := u.usernickname
                           userrole := some u.userrole }
          refreshToken := { userpk := u.id, signatureValid := true
                            notExpired := true }
          algorithm := "SIFT"
          similarity := (cmp st lt).similarity
          matchCount := (cmp st lt).good_matches
          features := lt.num_features },
        { db with sessions := db.sessions ++
            [{ userId := u.id
               refreshtoken := { userpk := u.id, signatureValid := true
                                 notExpired := true }
               expiresAt := now + 10 }] })) := by
    unfold loginUser
    rw [if_neg (by simp : ¬ (true = false)),
      if_neg (loginMatches_not_both_none hfind)]
    simp only [hfind]
    rw [if_neg (by simp [hact] : ¬ (u.userisativo = false))]
    simp only [hdec]
    rw [if_neg (by simp [hq] : ¬ (validateSIFTTemplate lt 30 = false))]
  constructor
  · rintro ⟨hs, hg⟩
    rw [base, if_neg (not_or.mpr ⟨not_lt.mpr hs, not_lt.mpr hg⟩)]
  · intro hrej
    rw [base, if_pos hrej]

/-- C6 witness: the sample user with a strong comparator result is
accepted with a session created, and with a weak comparator result the
same login fails with the no-match error leaving the store unchanged. -/
theorem c6_login_decision_policy_witness :
    loginUser dbAlice aliceLoginData true (.ok tmplOk) cmpGood 5 =
      (.ok aliceLoginOk, dbAliceAfterLogin) ∧
    loginUser dbAlice aliceLoginData true (.ok tmplOk) cmpBad 5 =
      (.error .digitalNaoCorresponde, dbAlice) := by
  constructor
  · have h := (c6_login_decision_policy dbAlice aliceLoginData (.ok tmplOk)
      cmpGood 5 aliceRow tmplOk tmplOk (by rfl) rfl rfl rfl rfl).1
      (by constructor <;> norm_num [cmpGood])
    rw [h]
    norm_num [aliceLoginOk, dbAliceAfterLogin, dbAlice, tokAlice, aliceRow,
      cmpGood, tmplOk, userWithoutSensitiveData, envOk]
  · exact (c6_login_decision_policy dbAlice aliceLoginData (.ok tmplOk)
      cmpBad 5 aliceRow tmplOk tmplOk (by rfl) rfl rfl rfl rfl).2
      (Or.inl (by norm_num [cmpBad]))

/-- Helper: the accumulated sum of squared bin differences is nonnegative. -/
theorem sumOfSquares_nonneg : ∀ (h1 h2 : List ℚ), 0 ≤ sumOfSquares h1 h2
  | [], _ => by simp [sumOfSquares]
  | _ :: _, [] => by simp [sumOfSquares]
  | a :: t1, b :: t2 => by
    have ih := sumOfSquares_nonneg t1 t2
    have hsq : (0 : ℚ) ≤ (a - b) ^ 2 := sq_nonneg _
    simp only [sumOfSquares, List.zipWith_cons_cons, List.sum_cons] at ih ⊢
    linarith

/-- Helper: for equal-length vectors the sum of squared differences
vanishes exactly when the vectors coincide. -/
theorem sumOfSquares_eq_zero_iff : ∀ (h1 h2 : List ℚ), h1.length = h2.length →
    (sumOfSquares h1 h2 = 0 ↔ h1 = h2)
  | [], [] => by simp [sumOfSquares]
  | [], _ :: _ => by intro h; simp at h
  | _ :: _, [] => by intro h; simp at h
  | a :: t1, b :: t2 => by
    intro hlen
    have hlen2 : t1.length = t2.length := by simpa using hlen
    have ih := sumOfSquares_eq_zero_iff t1 t2 hlen2
    have hnn := sumOfSquares_nonneg t1 t2
    have hsq : (0 : ℚ) ≤ (a - b) ^ 2 := sq_nonneg _
    simp only [sumOfSquares, List.zipWith_cons_cons, List.sum_cons] at ih hnn ⊢
    rw [add_eq_zero_iff_of_nonneg hsq hnn, sq_eq_zero_iff, sub_eq_zero, ih,
      List.cons.injEq]

/-- Helper: the euclidean distance of two equal-length vectors vanishes
exactly when they coincide. -/
theorem euclideanDistance_eq_zero_iff (h1 h2 : List ℚ)
    (hlen : h1.length = h2.length) :
    euclideanDistance h1 h2 = 0 ↔ h1 = h2 := by
  rw [euclideanDistance,
    Real.sqrt_eq_zero (by exact_mod_cast sumOfSquares_nonneg h1 h2),
    Rat.cast_eq_zero]
  exact sumOfSquares_eq_zero_iff h1 h2 hlen

/-- C4: on valid 256-bin histograms the matcher computes
1 / (1 + euclidean distance); the score is strictly positive, at most 1,
equals 1 exactly for identical vectors, and decreases monotonically with
the distance. -/
theorem c4_histogram_similarity (tA tB : HistTemplate)
    (hA : tA.histogram.length = 256) (hB : tB.histogram.length = 256) :
    compareTemplates tA tB =
      1 / (1 + euclideanDistance tA.histogram tB.histogram) ∧
    0 < compareTemplates tA tB ∧
    compareTemplates tA tB ≤ 1 ∧
    (compareTemplates tA tB = 1 ↔ tA.histogram = tB.histogram) ∧
    (∀ tC tD : HistTemplate, tC.histogram.length = 256 →
      tD.histogram.length = 256 →
      euclideanDistance tA.histogram tB.histogram ≤
        euclideanDistance tC.histogram tD.histogram →
      compareTemplates tC tD ≤ compareTemplates tA tB) := by
  have hform : ∀ (tC tD : HistTemplate), tC.histogram.length = 256 →
      tD.histogram.length = 256 →
      compareTemplates tC tD =
        1 / (1 + euclideanDistance tC.histogram tD.histogram) := by
    intro tC tD h1 h2
    rw [compareTemplates, if_neg]
    push_neg
    exact ⟨h1, h2⟩
  have hd0 : 0 ≤ euclideanDistance tA.histogram tB.histogram :=
    Real.sqrt_nonneg _
  have hpos : (0 : ℝ) < 1 + euclideanDistance tA.histogram tB.histogram := by
    linarith
  refine ⟨hform tA tB hA hB, ?_, ?_, ?_, ?_⟩
  · rw [hform tA tB hA hB]
    exact div_pos one_pos hpos
  · rw [hform tA tB hA hB, div_le_one hpos]
    linarith
  · rw [hform tA tB hA hB, div_eq_iff (ne_of_gt hpos), one_mul]
    constructor
    · intro h
      have hd : euclideanDistance tA.histogram tB.histogram = 0 := by linarith
      exact (euclideanDistance_eq_zero_iff _ _ (by rw [hA, hB])).mp hd
    · intro h
      have hd := (euclideanDistance_eq_zero_iff tA.histogram tB.histogram
        (by rw [hA, hB])).mpr h
      rw [hd, add_zero]
  · intro tC tD hC hD hle
    rw [hform tA tB hA hB, hform tC tD hC hD]
    exact one_div_le_one_div_of_le hpos (by linarith)

/-- C4 witness: two identical 256-bin histograms score exactly 1. -/
theorem c4_histogram_similarity_witness :
    compareTemplates { histogram := List.replicate 256 0 }
      { histogram := List.replicate 256 0 } = 1 :=
  (c4_histogram_similarity { histogram := List.replicate 256 0 }
    { histogram := List.replicate 256 0 }
    (by dsimp only; simp only [List.length_replicate])
    (by dsimp only; simp only [List.length_replicate])).2.2.2.1.mpr rfl

/-- C3 amended: the SIFT login path rejects a stored envelope whose
algorithm tag is not SIFT before any comparison, though surfaced as the
generic corrupt-template error; but the histogram comparators, given
vectors of incompatible shape, silently return the score 0 instead of
raising an AlgorithmMismatchError. -/
theorem c3_mismatch_amended :
    (∀ env : TemplateEnvelope, env.algorithm ≠ "SIFT" →
      decodeStoredTemplate env = .error .templateSalvoInvalido) ∧
    (∀ tA tB : HistTemplate,
      tA.histogram.length ≠ 256 ∨ tB.histogram.length ≠ 256 →
      compareTemplates tA tB = 0) ∧
    (∀ a b : List ℚ, a.length ≠ b.length ∨ a.length = 0 →
      compareBinaryTemplates a b = 0) := by
  refine ⟨?_, ?_, ?_⟩
  · intro env h
    unfold decodeStoredTemplate
    split <;> simp_all
  · intro tA tB h
    rw [compareTemplates, if_pos h]
  · intro a b h
    rw [compareBinaryTemplates, if_pos h]

/-- C3 amended witness: a non-SIFT envelope is rejected at decode, and
both shape-incompatible comparisons score 0. -/
theorem c3_mismatch_amended_witness :
    decodeStoredTemplate { template := tmplOk, algorithm := "HISTOGRAM"
                           version := "1.0", signatureValid := true
                           notExpired := true } =
      .error .templateSalvoInvalido ∧
    compareTemplates { histogram := [1, 2] }
      { histogram := List.replicate 256 0 } = 0 ∧
    compareBinaryTemplates [1, 0] [1] = 0 := by
  refine ⟨?_, ?_, ?_⟩
  · exact c3_mismatch_amended.1 _ (by decide)
  · exact c3_mismatch_amended.2.1 _ _ (Or.inl (by norm_num))
  · exact c3_mismatch_amended.2.2 [1, 0] [1] (Or.inl (by norm_num))

end APS
